import Mathlib

/-!
Verification of the `python-pptx` oxml layer (`src/pptx/oxml.py`,
`src/pptx/oxml_chart.py`) via a shallow embedding in Lean 4.

The embedding models the Python 2 semantics of the functions under test:
machine integers are `Int`/`Nat` (Python ints are unbounded), Python `/` on
ints is floor division (`Int.fdiv`), exceptions are modelled with an explicit
`PyErr` value, and the lxml element trees touched by the code are modelled as
explicit records of attribute/child association lists.
-/

set_option maxRecDepth 4000

/-- Python exception kinds raised by the code under verification. -/
inductive PyErr where
  | valueError
  | keyError
  | indexError
  | zeroDivisionError
  | overflowError
deriving DecidableEq, Repr

/-- Association-list update: replace the value at the first occurrence of the
key, or append the pair when the key is absent (lxml attribute-dict set). -/
def setKey (l : List (String × String)) (k v : String) : List (String × String) :=
  match l with
  | [] => [(k, v)]
  | (k2, v2) :: rest => if k2 = k then (k, v) :: rest else (k2, v2) :: setKey rest k v

/-- Association-list delete of a key (lxml attribute-dict `del`). -/
def eraseKey (l : List (String × String)) (k : String) : List (String × String) :=
  l.filter (fun p => p.1 ≠ k)

/-!
## Namespace registry and qualified-name resolver

`qn` is `src/pptx/oxml.py:83-91`.  The contents of `pptx.spec.nsmap` are not
under `src/`, so the registry below is modelled from the spec.
-/

/-- Modelled from the spec: the `nsmap` prefix-to-URI registry lives in the
`pptx.spec` module, which is not among the provided source files.  Spec §2 and
§6 fix the registered prefixes (a, p, c, r, cp, dc, dcterms, mc, c14, ...) as
the OOXML 2006 drawing/presentation schemas, the Dublin Core metadata schemas
and the Microsoft extension schemas; the URIs for c, r, mc, c14 and p14 appear
verbatim in templates in `src/pptx/oxml.py`. -/
def nsmap : List (String × String) :=
  [ ("a", "http://schemas.openxmlformats.org/drawingml/2006/main"),
    ("p", "http://schemas.openxmlformats.org/presentationml/2006/main"),
    ("c", "http://schemas.openxmlformats.org/drawingml/2006/chart"),
    ("r", "http://schemas.openxmlformats.org/officeDocument/2006/relationships"),
    ("cp", "http://schemas.openxmlformats.org/package/2006/metadata/core-properties"),
    ("dc", "http://purl.org/dc/elements/1.1/"),
    ("dcterms", "http://purl.org/dc/terms/"),
    ("xsi", "http://www.w3.org/2001/XMLSchema-instance"),
    ("mc", "http://schemas.openxmlformats.org/markup-compatibility/2006"),
    ("c14", "http://schemas.microsoft.com/office/drawing/2007/8/2/chart"),
    ("p14", "http://schemas.microsoft.com/office/powerpoint/2010/main") ]

/-- Python `str.split(':')`: splits on every colon; `''.split(':') == ['']`. -/
def splitColon : List Char → List (List Char)
  | [] => [[]]
  | c :: rest =>
    if c = ':' then [] :: splitColon rest
    else
      match splitColon rest with
      | [] => [[c]]
      | g :: gs => (c :: g) :: gs

/-- `qn(tag)` from `src/pptx/oxml.py:83-91`:
`prefix, tagroot = tag.split(':')` (a `ValueError` unless the split yields
exactly two parts), then `'{%s}%s' % (nsmap[prefix], tagroot)` (a `KeyError`
for an unregistered prefix). -/
def qn (tag : String) : Except PyErr String :=
  match splitColon tag.toList with
  | [pfx, tagroot] =>
    match nsmap.lookup (String.mk pfx) with
    | some uri => .ok ("\x7b" ++ uri ++ "\x7d" ++ String.mk tagroot)
    | none => .error .keyError
  | _ => .error .valueError

/-!
## Table factory (`CT_Table.new_tbl`, `src/pptx/oxml.py:812-841`) and the
boolean style properties (`src/pptx/oxml.py:740-810`).
-/

/-- The `<a:tblPr>` child element: its attribute dict plus its child elements
(tag/text pairs; `new_tbl`'s template gives it an `a:tableStyleId` child). -/
structure TblPr where
  attrs : List (String × String)
  children : List (String × String)
deriving DecidableEq, Repr

/-- The `<a:tbl>` element as far as the table claims observe it: the optional
`<a:tblPr>` child, the `w` attributes of the `<a:gridCol>` children of
`<a:tblGrid>`, and the `h` attributes of the `<a:tr>` children. -/
structure Tbl where
  tblPr : Option TblPr
  gridColWs : List Int
  trHs : List Int
deriving DecidableEq, Repr

/-- The six boolean property names of `CT_Table.BOOLPROPS`
(`src/pptx/oxml.py:740-742`). -/
def BOOLPROPS : List String :=
  ["bandCol", "bandRow", "firstCol", "firstRow", "lastCol", "lastRow"]

/-- `CT_Table.new_tbl` (`src/pptx/oxml.py:812-841`).  The template carries
`<a:tblPr firstRow="1" bandRow="1">` with an `<a:tableStyleId>` child.
`rowheight = height/rows` and `colwidth = width/cols` use Python 2 floor
division and raise `ZeroDivisionError` when the corresponding count is zero;
inside each loop the last column/row is reassigned
`width - ((cols-1) * colwidth)` resp. `height - ((rows-1) * rowheight)`. -/
def CT_Table.new_tbl (rows cols : Nat) (width height : Int) : Except PyErr Tbl :=
  if rows = 0 ∨ cols = 0 then .error .zeroDivisionError
  else
    let rowheight := height.fdiv rows
    let colwidth := width.fdiv cols
    let ws := (List.range cols).map
      (fun c => if c = cols - 1 then width - (cols - 1) * colwidth else colwidth)
    let hs := (List.range rows).map
      (fun r => if r = rows - 1 then height - (rows - 1) * rowheight else rowheight)
    .ok { tblPr := some { attrs := [("firstRow", "1"), ("bandRow", "1")],
                          children := [("a:tableStyleId",
                            "\x7b5C22544A-7EE6-4342-B048-85BDC9FD1C3A\x7d")] },
          gridColWs := ws, trHs := hs }

/-- `CT_Table._get_boolean_property` (`src/pptx/oxml.py:766-774`):
`False` when `<a:tblPr>` is absent, else `self.tblPr.get(propname) in ('1',
'true')`. -/
def CT_Table.get_boolean_property (tbl : Tbl) (propname : String) : Bool :=
  match tbl.tblPr with
  | none => false
  | some pr =>
    match pr.attrs.lookup propname with
    | some v => v = "1" ∨ v = "true"
    | none => false

/-- `CT_Table._set_boolean_property` (`src/pptx/oxml.py:776-791`): a truthy
value inserts an (attribute- and child-empty) `<a:tblPr>` if needed and sets
the attribute to `"1"`; a falsey value deletes the attribute when `<a:tblPr>`
exists and carries it, and otherwise does nothing. -/
def CT_Table.set_boolean_property (tbl : Tbl) (propname : String) (value : Bool) : Tbl :=
  if value then
    match tbl.tblPr with
    | none => { tbl with tblPr := some { attrs := [(propname, "1")], children := [] } }
    | some pr => { tbl with tblPr := some { pr with attrs := setKey pr.attrs propname "1" } }
  else
    match tbl.tblPr with
    | none => tbl
    | some pr =>
      if (pr.attrs.lookup propname).isSome then
        { tbl with tblPr := some { pr with attrs := eraseKey pr.attrs propname } }
      else tbl

/-!
## Table cell (`CT_TableCell`, `src/pptx/oxml.py:844-970`)
-/

/-- The `<a:tc>` element as far as the cell claims observe it: whether the
`<a:txBody>` child is present (it always is in cells built by `new_tc`; it
only steers the insertion index of a lazily created `<a:tcPr>`), and the
optional `<a:tcPr>` child with its attribute dict. -/
structure TcCell where
  txBody : Bool
  tcPr : Option (List (String × String))
deriving DecidableEq, Repr

/-- `CT_TableCell.new_tc` (`src/pptx/oxml.py:857-863`): the `_tc_tmpl`
template (`src/pptx/oxml.py:846-855`) contains an `<a:txBody>` child and an
attribute-empty `<a:tcPr/>` child. -/
def CT_TableCell.new_tc : TcCell :=
  { txBody := true, tcPr := some [] }

/-- Python `int(s)`: optional sign, then at least one digit (whitespace
stripping omitted; the code only ever parses attribute values it wrote with
`str(int)`). `ValueError` otherwise. -/
def pyIntOfString (s : String) : Except PyErr Int :=
  let digits : List Char → Except PyErr Nat := fun cs =>
    if cs ≠ [] ∧ cs.all Char.isDigit then
      .ok (cs.foldl (fun acc c => 10 * acc + (c.toNat - 48)) 0)
    else .error .valueError
  match s.toList with
  | '-' :: rest => (digits rest).map (fun n => -(n : Int))
  | '+' :: rest => (digits rest).map (fun n => (n : Int))
  | cs => (digits cs).map (fun n => (n : Int))

/-- `CT_TableCell.__get_marX` (`src/pptx/oxml.py:899-903`): the default when
`<a:tcPr>` is absent or lacks the attribute, else `int()` of the attribute
string. -/
def CT_TableCell.get_marX (tc : TcCell) (attr_name : String) (dflt : Int) : Except PyErr Int :=
  match tc.tcPr with
  | none => .ok dflt
  | some attrs =>
    match attrs.lookup attr_name with
    | some v => pyIntOfString v
    | none => .ok dflt

/-- `CT_TableCell.marT` getter (`src/pptx/oxml.py:905-916`). -/
def CT_TableCell.marT (tc : TcCell) : Except PyErr Int := CT_TableCell.get_marX tc "marT" 45720

/-- `CT_TableCell.marR` getter (`src/pptx/oxml.py:918-921`). -/
def CT_TableCell.marR (tc : TcCell) : Except PyErr Int := CT_TableCell.get_marX tc "marR" 91440

/-- `CT_TableCell.marB` getter (`src/pptx/oxml.py:923-926`). -/
def CT_TableCell.marB (tc : TcCell) : Except PyErr Int := CT_TableCell.get_marX tc "marB" 45720

/-- `CT_TableCell.marL` getter (`src/pptx/oxml.py:928-931`). -/
def CT_TableCell.marL (tc : TcCell) : Except PyErr Int := CT_TableCell.get_marX tc "marL" 91440

/-- `CT_TableCell.__clear_marX` (`src/pptx/oxml.py:947-957`): no-op when
`<a:tcPr>` is absent; otherwise deletes the attribute if present and then
removes `<a:tcPr>` whenever its attribute dict is empty. -/
def CT_TableCell.clear_marX (tc : TcCell) (marX : String) : TcCell :=
  match tc.tcPr with
  | none => tc
  | some attrs =>
    let attrs2 := eraseKey attrs marX
    if attrs2 = [] then { tc with tcPr := none } else { tc with tcPr := some attrs2 }

/-- `CT_TableCell._set_marX` (`src/pptx/oxml.py:933-945`): `None` routes to
`__clear_marX`; otherwise a `<a:tcPr>` is created when absent (inserted after
`<a:txBody>`) and the attribute is set to `str(value)`. -/
def CT_TableCell.set_marX (tc : TcCell) (marX : String) (value : Option Int) : TcCell :=
  match value with
  | none => CT_TableCell.clear_marX tc marX
  | some n =>
    match tc.tcPr with
    | none => { tc with tcPr := some [(marX, n.repr)] }
    | some attrs => { tc with tcPr := some (setKey attrs marX n.repr) }

/-- `CT_TableCell._clear_anchor` (`src/pptx/oxml.py:887-897`): same pruning
discipline as `__clear_marX`, on the `anchor` attribute. -/
def CT_TableCell.clear_anchor (tc : TcCell) : TcCell :=
  match tc.tcPr with
  | none => tc
  | some attrs =>
    let attrs2 := eraseKey attrs "anchor"
    if attrs2 = [] then { tc with tcPr := none } else { tc with tcPr := some attrs2 }

/-- `CT_TableCell._set_anchor` (`src/pptx/oxml.py:875-885`): `None` routes to
`_clear_anchor`; otherwise the attribute is set on a lazily created
`<a:tcPr>`. -/
def CT_TableCell.set_anchor (tc : TcCell) (anchor : Option String) : TcCell :=
  match anchor with
  | none => CT_TableCell.clear_anchor tc
  | some a =>
    match tc.tcPr with
    | none => { tc with tcPr := some [("anchor", a)] }
    | some attrs => { tc with tcPr := some (setKey attrs "anchor" a) }

/-!
## Core properties (`CT_CoreProperties`, `src/pptx/oxml.py:141-329`)

Datetimes follow Python 2 `datetime` semantics: the proleptic Gregorian
calendar restricted to years 1..9999, with `datetime + timedelta` raising
`OverflowError` outside that range.  `datetime.strptime` is embedded from
CPython's `_strptime`: each directive is the regex CPython compiles for it
(`%Y` = `\d\d\d\d`, `%m` = `1[0-2]|0[1-9]|[1-9]`, `%d` =
`3[01]|[12]\d|0[1-9]|[1-9]`, `%H` = `2[0-3]|[0-1]\d|\d`, `%M` = `[0-5]\d|\d`,
`%S` = `6[0-1]|[0-5]\d|\d`), the whole input must be consumed, and the final
`datetime()` constructor call validates day-of-month, second ≤ 59 and
year ≥ 1. -/

/-- A Python `datetime.datetime` value (microseconds and tzinfo are never
used by the code under verification). -/
structure PDateTime where
  year : Int
  month : Int
  day : Int
  hour : Int
  minute : Int
  second : Int
deriving DecidableEq, Repr

/-- Numeric value of a decimal digit character. -/
def digitVal (c : Char) : Int := (c.toNat : Int) - 48

/-- Consume one expected literal character (strptime literal matching). -/
def pLit (ch : Char) : List Char → Option (List Char)
  | c :: rest => if c = ch then some rest else none
  | [] => none

/-- strptime `%Y`: exactly four digits. -/
def pYear4 : List Char → Option (Int × List Char)
  | a :: b :: c :: d :: rest =>
    if a.isDigit ∧ b.isDigit ∧ c.isDigit ∧ d.isDigit then
      some (1000 * digitVal a + 100 * digitVal b + 10 * digitVal c + digitVal d, rest)
    else none
  | _ => none

/-- strptime `%m`: regex `1[0-2]|0[1-9]|[1-9]`, alternatives in this order. -/
def pMonth : List Char → Option (Int × List Char)
  | a :: b :: rest =>
    if a = '1' ∧ (b = '0' ∨ b = '1' ∨ b = '2') then some (10 + digitVal b, rest)
    else if a = '0' ∧ b.isDigit ∧ b ≠ '0' then some (digitVal b, rest)
    else if a.isDigit ∧ a ≠ '0' then some (digitVal a, b :: rest)
    else none
  | [a] => if a.isDigit ∧ a ≠ '0' then some (digitVal a, []) else none
  | [] => none

/-- strptime `%d`: regex `3[01]|[12]\d|0[1-9]|[1-9]`. -/
def pDay : List Char → Option (Int × List Char)
  | a :: b :: rest =>
    if a = '3' ∧ (b = '0' ∨ b = '1') then some (30 + digitVal b, rest)
    else if (a = '1' ∨ a = '2') ∧ b.isDigit then some (10 * digitVal a + digitVal b, rest)
    else if a = '0' ∧ b.isDigit ∧ b ≠ '0' then some (digitVal b, rest)
    else if a.isDigit ∧ a ≠ '0' then some (digitVal a, b :: rest)
    else none
  | [a] => if a.isDigit ∧ a ≠ '0' then some (digitVal a, []) else none
  | [] => none

/-- strptime `%H`: regex `2[0-3]|[0-1]\d|\d`. -/
def pHour : List Char → Option (Int × List Char)
  | a :: b :: rest =>
    if a = '2' ∧ (b = '0' ∨ b = '1' ∨ b = '2' ∨ b = '3') then some (20 + digitVal b, rest)
    else if (a = '0' ∨ a = '1') ∧ b.isDigit then some (10 * digitVal a + digitVal b, rest)
    else if a.isDigit then some (digitVal a, b :: rest)
    else none
  | [a] => if a.isDigit then some (digitVal a, []) else none
  | [] => none

/-- strptime `%M`: regex `[0-5]\d|\d`. -/
def pMinute : List Char → Option (Int × List Char)
  | a :: b :: rest =>
    if a.isDigit ∧ digitVal a ≤ 5 ∧ b.isDigit then some (10 * digitVal a + digitVal b, rest)
    else if a.isDigit then some (digitVal a, b :: rest)
    else none
  | [a] => if a.isDigit then some (digitVal a, []) else none
  | [] => none

/-- strptime `%S`: regex `6[0-1]|[0-5]\d|\d`. -/
def pSecond : List Char → Option (Int × List Char)
  | a :: b :: rest =>
    if a = '6' ∧ (b = '0' ∨ b = '1') then some (60 + digitVal b, rest)
    else if a.isDigit ∧ digitVal a ≤ 5 ∧ b.isDigit then some (10 * digitVal a + digitVal b, rest)
    else if a.isDigit then some (digitVal a, b :: rest)
    else none
  | [a] => if a.isDigit then some (digitVal a, []) else none
  | [] => none

/-- Proleptic-Gregorian leap year. -/
def isLeap (y : Int) : Bool := (y % 4 = 0 ∧ y % 100 ≠ 0) ∨ y % 400 = 0

/-- Length of a month. -/
def daysInMonth (y m : Int) : Int :=
  if m = 2 then (if isLeap y then 29 else 28)
  else if m = 4 ∨ m = 6 ∨ m = 9 ∨ m = 11 then 30
  else 31

/-- The `datetime()` constructor: `None` models its `ValueError` on a field
out of range.  The strptime regexes already bound month 1..12, hour 0..23 and
minute 0..59, so the checks that matter here are year ≥ 1 (a four-digit year
is ≤ 9999 anyway), day ≤ month length and second ≤ 59. -/
def mkDatetime (y mo d h mi s : Int) : Option PDateTime :=
  if 1 ≤ y ∧ y ≤ 9999 ∧ 1 ≤ mo ∧ mo ≤ 12 ∧ 1 ≤ d ∧ d ≤ daysInMonth y mo ∧
     0 ≤ h ∧ h ≤ 23 ∧ 0 ≤ mi ∧ mi ≤ 59 ∧ 0 ≤ s ∧ s ≤ 59 then
    some { year := y, month := mo, day := d, hour := h, minute := mi, second := s }
  else none

/-- `datetime.strptime(cs, '%Y-%m-%dT%H:%M:%S')`. -/
def strptimeFull (cs : List Char) : Option PDateTime := do
  let (y, r) ← pYear4 cs
  let r ← pLit '-' r
  let (mo, r) ← pMonth r
  let r ← pLit '-' r
  let (d, r) ← pDay r
  let r ← pLit 'T' r
  let (h, r) ← pHour r
  let r ← pLit ':' r
  let (mi, r) ← pMinute r
  let r ← pLit ':' r
  let (s, r) ← pSecond r
  if r = [] then mkDatetime y mo d h mi s else none

/-- `datetime.strptime(cs, '%Y-%m-%d')` (missing fields default to 0:00:00). -/
def strptimeDate (cs : List Char) : Option PDateTime := do
  let (y, r) ← pYear4 cs
  let r ← pLit '-' r
  let (mo, r) ← pMonth r
  let r ← pLit '-' r
  let (d, r) ← pDay r
  if r = [] then mkDatetime y mo d 0 0 0 else none

/-- `datetime.strptime(cs, '%Y-%m')` (day defaults to 1). -/
def strptimeYM (cs : List Char) : Option PDateTime := do
  let (y, r) ← pYear4 cs
  let r ← pLit '-' r
  let (mo, r) ← pMonth r
  if r = [] then mkDatetime y mo 1 0 0 0 else none

/-- `datetime.strptime(cs, '%Y')` (month and day default to 1). -/
def strptimeY (cs : List Char) : Option PDateTime := do
  let (y, r) ← pYear4 cs
  if r = [] then mkDatetime y 1 1 0 0 0 else none

/-- The template loop in `_parse_W3CDTF_to_datetime`
(`src/pptx/oxml.py:308-323`): every template is tried and the *last*
successful parse wins (`continue` on `ValueError`, no `break`). -/
def strptimeTemplates (cs : List Char) : Option PDateTime :=
  [strptimeFull cs, strptimeDate cs, strptimeYM cs, strptimeY cs].foldl
    (fun acc o => match o with | some d => some d | none => acc) none

/-- Days since 1970-01-01 of a proleptic-Gregorian civil date
(Python `datetime.toordinal` shifted by the epoch). -/
def days_from_civil (y m d : Int) : Int :=
  let y2 := if m ≤ 2 then y - 1 else y
  let era := y2.fdiv 400
  let yoe := y2 - era * 400
  let mp := (m + 9) % 12
  let doy := (153 * mp + 2).fdiv 5 + d - 1
  let doe := yoe * 365 + yoe.fdiv 4 - yoe.fdiv 100 + doy
  era * 146097 + doe - 719468

/-- Seconds since 1970-01-01T00:00:00 of a `PDateTime`. -/
def toSecs (dt : PDateTime) : Int :=
  86400 * days_from_civil dt.year dt.month dt.day
    + 3600 * dt.hour + 60 * dt.minute + dt.second

/-- Civil date from days since 1970-01-01 (inverse of `days_from_civil`). -/
def civil_from_days (z0 : Int) : Int × Int × Int :=
  let z := z0 + 719468
  let era := z.fdiv 146097
  let doe := z - era * 146097
  let yoe := (doe - doe.fdiv 1460 + doe.fdiv 36524 - doe.fdiv 146096).fdiv 365
  let y := yoe + era * 400
  let doy := doe - (365 * yoe + yoe.fdiv 4 - yoe.fdiv 100)
  let mp := (5 * doy + 2).fdiv 153
  let d := doy - (153 * mp + 2).fdiv 5 + 1
  let m := if mp < 10 then mp + 3 else mp - 9
  (if m ≤ 2 then y + 1 else y, m, d)

/-- `PDateTime` from seconds since the epoch. -/
def fromSecs (n : Int) : PDateTime :=
  let days := n.fdiv 86400
  let rem := n - 86400 * days
  let c := civil_from_days days
  { year := c.1, month := c.2.1, day := c.2.2,
    hour := rem.fdiv 3600, minute := (rem % 3600).fdiv 60, second := rem % 60 }

/-- Seconds of `datetime.min` = 0001-01-01T00:00:00. -/
def minSecs : Int := toSecs { year := 1, month := 1, day := 1, hour := 0, minute := 0, second := 0 }

/-- Seconds of 9999-12-31T23:59:59 (`datetime.max` truncated to seconds; the
code only ever adds whole-minute deltas to whole-second datetimes). -/
def maxSecs : Int := toSecs { year := 9999, month := 12, day := 31, hour := 23, minute := 59, second := 59 }

/-- Python `datetime + timedelta(seconds=secs)`: exact arithmetic, with
`OverflowError` when the result leaves the supported year range 1..9999. -/
def addSeconds (dt : PDateTime) (secs : Int) : Except PyErr PDateTime :=
  let t := toSecs dt + secs
  if t < minSecs ∨ maxSecs < t then .error .overflowError else .ok (fromSecs t)

/-- `CT_CoreProperties._offset_pattern` (`src/pptx/oxml.py:281`): the regex
`([+-])(\d\d):(\d\d)` matched at the start of the offset string; returns
(sign-is-plus, hours, minutes).  The pattern is only ever applied to strings
of length exactly 6, which it then consumes entirely. -/
def matchOffset : List Char → Option (Bool × Int × Int)
  | [s, h1, h2, c, m1, m2] =>
    if (s = '+' ∨ s = '-') ∧ h1.isDigit ∧ h2.isDigit ∧ c = ':' ∧ m1.isDigit ∧ m2.isDigit then
      some (s = '+', 10 * digitVal h1 + digitVal h2, 10 * digitVal m1 + digitVal m2)
    else none
  | _ => none

/-- `CT_CoreProperties._offset_dt` (`src/pptx/oxml.py:283-298`):
`sign_factor = -1 if sign == '+' else 1`, then
`dt + timedelta(hours=hours*sign_factor, minutes=minutes*sign_factor)`;
`ValueError` when the offset string does not match the pattern. -/
def CT_CoreProperties.offset_dt (dt : PDateTime) (offset_str : List Char) : Except PyErr PDateTime :=
  match matchOffset offset_str with
  | none => .error .valueError
  | some (isPlus, h, m) =>
    let sign_factor : Int := if isPlus then -1 else 1
    addSeconds dt (sign_factor * (h * 3600 + m * 60))

/-- `CT_CoreProperties._parse_W3CDTF_to_datetime` (`src/pptx/oxml.py:300-329`):
the first 19 characters go through the template loop (`ValueError` when all
templates fail) and a 6-character remainder is treated as a timezone offset. -/
def CT_CoreProperties.parse_W3CDTF_to_datetime (w3cdtf_str : String) : Except PyErr PDateTime :=
  let cs := w3cdtf_str.toList
  let parseable_piece := cs.take 19
  let offset_piece := cs.drop 19
  match strptimeTemplates parseable_piece with
  | none => .error .valueError
  | some dt =>
    if offset_piece.length = 6 then CT_CoreProperties.offset_dt dt offset_piece
    else .ok dt

/-- A child element of `<cp:coreProperties>`: tag (kept in `prefix:local`
form, Clark conversion through the fixed registry being injective), text
content, and attribute dict. -/
structure ChildElem where
  tag : String
  text : String
  attrib : List (String × String)
deriving DecidableEq, Repr

/-- The `<cp:coreProperties>` element: child elements and its own attribute
dict. -/
structure CoreProps where
  children : List ChildElem
  attrib : List (String × String)
deriving DecidableEq, Repr

/-- `CT_CoreProperties.new_coreProperties` (`src/pptx/oxml.py:171-176`): the
template is an empty element. -/
def CT_CoreProperties.new_coreProperties : CoreProps := { children := [], attrib := [] }

/-- `CT_CoreProperties._str_tags` (`src/pptx/oxml.py:154-166`). -/
def CT_CoreProperties.str_tags : List (String × String) :=
  [ ("author", "dc:creator"),
    ("category", "cp:category"),
    ("comments", "dc:description"),
    ("content_status", "cp:contentStatus"),
    ("identifier", "dc:identifier"),
    ("keywords", "cp:keywords"),
    ("language", "dc:language"),
    ("last_modified_by", "cp:lastModifiedBy"),
    ("subject", "dc:subject"),
    ("title", "dc:title"),
    ("version", "cp:version") ]

/-- `CT_CoreProperties._date_tags` (`src/pptx/oxml.py:149-153`). -/
def CT_CoreProperties.date_tags : List (String × String) :=
  [ ("created", "dcterms:created"),
    ("last_printed", "cp:lastPrinted"),
    ("modified", "dcterms:modified") ]

/-- First child with the given tag (`hasattr`/`getattr` on an objectify
element resolve to the first matching child). -/
def lookupChild (cs : List ChildElem) (tag : String) : Option ChildElem :=
  cs.find? (fun c => c.tag == tag)

/-- objectify `setattr(elm, tag, text)`: overwrite the text of the first
child with that tag, appending a fresh child when none exists. -/
def setChildText (cs : List ChildElem) (tag text : String) : List ChildElem :=
  match cs with
  | [] => [{ tag := tag, text := text, attrib := [] }]
  | c :: rest =>
    if c.tag = tag then { c with text := text } :: rest
    else c :: setChildText rest tag text

/-- Set an attribute on the first child with the given tag (no-op when the
child is absent; the code only calls this on a child it just created). -/
def setChildAttr (cs : List ChildElem) (tag k v : String) : List ChildElem :=
  match cs with
  | [] => []
  | c :: rest =>
    if c.tag = tag then { c with attrib := setKey c.attrib k v } :: rest
    else c :: setChildAttr rest tag k v

/-- A dynamically typed Python value as handed to the property setters. -/
inductive PyValue where
  | pstr (s : String)
  | pint (n : Int)
  | pdt (d : PDateTime)
  | pnone
deriving DecidableEq, Repr

/-- Python `str(value)` for the values above (`str(datetime)` is
`'YYYY-MM-DD HH:MM:SS'`; the exact shape is irrelevant to the claims). -/
def pyStrOf : PyValue → String
  | .pstr s => s
  | .pint n => n.repr
  | .pdt d => d.year.repr ++ "-" ++ d.month.repr ++ "-" ++ d.day.repr
  | .pnone => "None"

/-- `CT_CoreProperties.__get_str_prop` (`src/pptx/oxml.py:205-211`): empty
string when the backing child is absent, else its text.  The `KeyError`
branch models `_str_tags[name]`; the `__getattribute__` dispatch guarantees
membership. -/
def CT_CoreProperties.get_str_prop (props : CoreProps) (name : String) : Except PyErr String :=
  match CT_CoreProperties.str_tags.lookup name with
  | none => .error .keyError
  | some tag =>
    match lookupChild props.children tag with
    | none => .ok ""
    | some c => .ok c.text

/-- `CT_CoreProperties.__get_date_prop` (`src/pptx/oxml.py:213-225`): `None`
when the backing child is absent; otherwise the W3CDTF parse of its text,
with `except ValueError` downgrading a `ValueError` — and only a
`ValueError` — to `None`. -/
def CT_CoreProperties.get_date_prop (props : CoreProps) (name : String) :
    Except PyErr (Option PDateTime) :=
  match CT_CoreProperties.date_tags.lookup name with
  | none => .error .keyError
  | some tag =>
    match lookupChild props.children tag with
    | none => .ok none
    | some c =>
      match CT_CoreProperties.parse_W3CDTF_to_datetime c.text with
      | .ok dt => .ok (some dt)
      | .error .valueError => .ok none
      | .error e => .error e

/-- `CT_CoreProperties.__set_str_prop` (`src/pptx/oxml.py:244-252`), embedded
in statement order with the Python post-exception state made explicit: the
result pairs the raised exception (if any) with the element state when the
call returns or raises.  `value = str(value)`, the >255 length check raises
before anything is touched, then the backing child is created/overwritten. -/
def CT_CoreProperties.set_str_prop (props : CoreProps) (name : String) (value : PyValue) :
    Option PyErr × CoreProps :=
  let value2 := pyStrOf value
  if 255 < value2.length then (some .valueError, props)
  else
    match CT_CoreProperties.str_tags.lookup name with
    | none => (some .keyError, props)
    | some tag => (none, { props with children := setChildText props.children tag value2 })

/-- `'%Y-%m-%dT%H:%M:%SZ'` formatting (`value.strftime`, zero-padded). -/
def formatW3CDTFZ (d : PDateTime) : String :=
  let pad2 : Int → String := fun n => if n < 10 then "0" ++ n.repr else n.repr
  d.year.repr ++ "-" ++ pad2 d.month ++ "-" ++ pad2 d.day ++ "T"
    ++ pad2 d.hour ++ ":" ++ pad2 d.minute ++ ":" ++ pad2 d.second ++ "Z"

/-- `CT_CoreProperties.__set_date_prop` (`src/pptx/oxml.py:254-271`) in
statement order: the `isinstance(value, datetime)` check raises `ValueError`
first; `_date_tags[name]` would raise `KeyError` next; `value.strftime`
raises `ValueError` for years before 1900 (a Python 2 restriction) — all
before any mutation.  Then the backing child is written and, for `created`
and `modified`, the `xsi:foo` set/delete trick and the child's `xsi:type`
attribute are applied. -/
def CT_CoreProperties.set_date_prop (props : CoreProps) (name : String) (value : PyValue) :
    Option PyErr × CoreProps :=
  match value with
  | .pdt d =>
    match CT_CoreProperties.date_tags.lookup name with
    | none => (some .keyError, props)
    | some tag =>
      if d.year < 1900 then (some .valueError, props)
      else
        let dt_str := formatW3CDTFZ d
        let props2 := { props with children := setChildText props.children tag dt_str }
        if name = "created" ∨ name = "modified" then
          let props3 := { props2 with attrib := setKey props2.attrib "xsi:foo" "bar" }
          let props4 := { props3 with
            children := setChildAttr props3.children tag "xsi:type" "dcterms:W3CDTF" }
          (none, { props4 with attrib := eraseKey props4.attrib "xsi:foo" })
        else (none, props2)
  | _ => (some .valueError, props)

/-- `CT_CoreProperties.__set_revision` (`src/pptx/oxml.py:273-279`):
`ValueError` unless the value is an `int` that is ≥ 1, checked before the
backing child is written. -/
def CT_CoreProperties.set_revision (props : CoreProps) (value : PyValue) :
    Option PyErr × CoreProps :=
  match value with
  | .pint n =>
    if n < 1 then (some .valueError, props)
    else (none, { props with children := setChildText props.children "cp:revision" n.repr })
  | _ => (some .valueError, props)

/-!
## Serialization and annotation stripping (`oxml_tostring`,
`src/pptx/oxml.py:74-80`)
-/

/-- A generic lxml element tree node: tag, attribute list (Clark-notation
qualified names), children.  Text content is irrelevant here. -/
inductive XTree where
  | elem (tag : String) (attrs : List (String × String)) (children : List XTree)

/-- The Clark notation of the `py:pytype` annotation attribute that the
objectify parser attaches to elements during construction. -/
def pytypeAttrName : String :=
  "\x7bhttp://codespeak.net/lxml/objectify/pytype\x7dpytype"

/-- `objectify.deannotate(elm, xsi=False, cleanup_namespaces=True)` as called
by `oxml_tostring` (`src/pptx/oxml.py:78`): with the default `pytype=True`
every parser-attached `py:pytype` annotation attribute is removed from the
whole subtree, while `xsi=False` leaves the `xsi:type` attributes the code
set deliberately in place. -/
def deannotate : XTree → XTree
  | .elem tag attrs children =>
    .elem tag (attrs.filter (fun p => p.1 ≠ pytypeAttrName))
      (children.attach.map (fun c => deannotate c.1))
termination_by t => sizeOf t
decreasing_by
  have h := List.sizeOf_lt_of_mem c.2
  simp only [XTree.elem.sizeOf_spec]
  omega

/-- `etree.tostring` restricted to what the claims observe: tags and
attributes of the (already deannotated) tree. -/
def serializeXml : XTree → String
  | .elem tag attrs children =>
    "<" ++ tag
      ++ ((attrs.map (fun p => " " ++ p.1 ++ "=\"" ++ p.2 ++ "\"")).foldl (· ++ ·) "")
      ++ ">"
      ++ ((children.attach.map (fun c => serializeXml c.1)).foldl (· ++ ·) "")
      ++ "</" ++ tag ++ ">"
termination_by t => sizeOf t
decreasing_by
  have h := List.sizeOf_lt_of_mem c.2
  simp only [XTree.elem.sizeOf_spec]
  omega

/-- `oxml_tostring` (`src/pptx/oxml.py:74-80`): deannotate in place, then
serialize. -/
def oxml_tostring (elm : XTree) : String := serializeXml (deannotate elm)

/-- All attribute names occurring anywhere in a tree. -/
def allAttrNames : XTree → List String
  | .elem _ attrs children =>
    attrs.map Prod.fst ++ (children.attach.map (fun c => allAttrNames c.1)).flatten
termination_by t => sizeOf t
decreasing_by
  have h := List.sizeOf_lt_of_mem c.2
  simp only [XTree.elem.sizeOf_spec]
  omega

/-!
## Chart series builder (`CT_ChartCell.new_chart`,
`src/pptx/oxml.py:1175-1255` and `src/pptx/oxml_chart.py:123-203`; the two
copies are identical).
-/

/-- Python 2 `string.uppercase` in the C locale: the 26 ASCII capitals
(`string.uppercase[idx]` raises `IndexError` beyond them). -/
def string_uppercase : List String :=
  ["A", "B", "C", "D", "E", "F", "G", "H", "I", "J", "K", "L", "M",
   "N", "O", "P", "Q", "R", "S", "T", "U", "V", "W", "X", "Y", "Z"]

/-- One `<c:ser>` element as far as the chart claim observes it: the `c:idx`
and `c:order` values and the formula strings and cached columns of the
`c:tx`, `c:cat` and `c:val` references. -/
structure ChartSer where
  idx : Nat
  order : Nat
  tx_f : String
  tx_cache : List String
  cat_f : String
  cat_cache : List String
  val_f : String
  val_cache : List String
deriving DecidableEq, Repr

/-- Python indexing `data[i]` with `IndexError`. -/
def listGet (data : List α) (i : Nat) : Except PyErr α :=
  match data.get? i with
  | some x => .ok x
  | none => .error .indexError

/-- One iteration of the series loop in `CT_ChartCell.new_chart`
(`src/pptx/oxml.py:1191-1231`) for a heading index `idx ≥ 1`:
`ref_series = "Sheet1!$" + string.uppercase[idx] + '$1'`,
`ref_cat = 'Sheet1!$A$2:$A$' + str(len(data[1])+1)`,
`ref_val = "Sheet1!$" + COL + '$2' + ":$" + COL + "$" + str(len(data[0])+1)`;
the `c:ser` gets `idx`/`order` of `idx-1`, its `c:tx` caches the heading
cell, its `c:cat` caches `data[0]` and its `c:val` caches `data[idx]`. -/
def CT_ChartCell.ser_for (data : List (List String)) (idx : Nat) (val : List String) :
    Except PyErr ChartSer := do
  let col ← listGet string_uppercase idx
  let ref_series := "Sheet1!$" ++ col ++ "$1"
  let d1 ← listGet data 1
  let ref_cat := "Sheet1!$A$2:$A$" ++ Nat.repr (d1.length + 1)
  let d0 ← listGet data 0
  let ref_val := "Sheet1!$" ++ col ++ "$2" ++ ":$" ++ col ++ "$" ++ Nat.repr (d0.length + 1)
  let dIdx ← listGet data idx
  .ok { idx := idx - 1, order := idx - 1, tx_f := ref_series, tx_cache := val,
        cat_f := ref_cat, cat_cache := d0, val_f := ref_val, val_cache := dIdx }

/-- The `for idx, val in enumerate(headings)` loop of
`CT_ChartCell.new_chart` (`src/pptx/oxml.py:1191-1231`): index 0 is skipped
(`continue`), every later heading produces one `<c:ser>` in order. -/
def CT_ChartCell.new_chart_sers (data : List (List String)) (headings : List (List String)) :
    Except PyErr (List ChartSer) :=
  (headings.enum.filter (fun p => p.1 ≠ 0)).mapM
    (fun p => CT_ChartCell.ser_for data p.1 p.2)

/-- The headings preprocessing at the top of `CT_Chart_Container.new_chart`
(`src/pptx/oxml.py:1140-1148`): wraps each heading into a singleton list
(the loop leaves the initial `[[]]` untouched for an empty input). -/
def headingsToNested (headings_xlsx : List String) : List (List String) :=
  match headings_xlsx with
  | [] => [[]]
  | hs => hs.map (fun h => [h])

/-- `CT_Chart_Container.new_chart` (`src/pptx/oxml.py:1139-1166`), restricted
to the series it appends to the plot area. -/
def CT_Chart_Container.new_chart_sers (data : List (List String)) (headings_xlsx : List String) :
    Except PyErr (List ChartSer) :=
  CT_ChartCell.new_chart_sers data (headingsToNested headings_xlsx)

/-!
## Theorems
-/

theorem lastAbsorb_sum (m : Nat) (w q : Int) :
    ((List.range (m + 1)).map (fun c => if c = m then w - (m : Nat) * q else q)).sum = w := by
  rw [List.range_succ, List.map_append, List.sum_append]
  have hcong : (List.range m).map (fun c => if c = m then w - (m : Nat) * q else q)
      = (List.range m).map (Function.const Nat q) := by
    apply List.map_congr_left
    intro a ha
    have ham : a < m := List.mem_range.mp ha
    simp [Function.const, Nat.ne_of_lt ham]
  rw [hcong, List.map_const, List.sum_replicate, List.length_range]
  simp only [List.map_cons, List.map_nil, List.sum_cons, List.sum_nil, if_pos rfl]
  push_cast
  ring

theorem lastAbsorb_get (m i : Nat) (w q : Int) (hi : i < m) :
    ((List.range (m + 1)).map (fun c => if c = m then w - (m : Nat) * q else q))[i]? = some q := by
  rw [List.getElem?_map, List.getElem?_range (by omega : i < m + 1)]
  simp [Nat.ne_of_lt hi]

theorem lastAbsorb_get_last (m : Nat) (w q : Int) :
    ((List.range (m + 1)).map
      (fun c => if c = m then w - (m : Nat) * q else q))[m]? = some (w - (m : Nat) * q) := by
  rw [List.getElem?_map, List.getElem?_range (Nat.lt_succ_self m)]
  simp

/-- C1: a table generated by `CT_Table.new_tbl` has gridCol column widths
summing exactly to `width` and tr row heights summing exactly to `height`;
every column/row except the last gets the floor-division share and the last
one absorbs the entire integer-division remainder. -/
theorem claim_C1_new_tbl_partition (rows cols : Nat) (width height : Int) (tbl : Tbl)
    (h : CT_Table.new_tbl rows cols width height = Except.ok tbl) :
    tbl.gridColWs.sum = width ∧ tbl.trHs.sum = height ∧
    (∀ i, i < cols - 1 → tbl.gridColWs[i]? = some (width.fdiv cols)) ∧
    tbl.gridColWs[cols - 1]? = some (width - ((cols : Int) - 1) * width.fdiv cols) ∧
    (∀ i, i < rows - 1 → tbl.trHs[i]? = some (height.fdiv rows)) ∧
    tbl.trHs[rows - 1]? = some (height - ((rows : Int) - 1) * height.fdiv rows) := by
  by_cases hz : rows = 0 ∨ cols = 0
  · rw [CT_Table.new_tbl, if_pos hz] at h
    exact absurd h (by simp)
  · rw [CT_Table.new_tbl, if_neg hz] at h
    push_neg at hz
    obtain ⟨m, rfl⟩ : ∃ m, cols = m + 1 := ⟨cols - 1, by omega⟩
    obtain ⟨k, rfl⟩ : ∃ k, rows = k + 1 := ⟨rows - 1, by omega⟩
    have h2 := Except.ok.inj h
    subst h2
    have hcm : ((m + 1 : Nat) : Int) - 1 = (m : Int) := by push_cast ; ring
    have hck : ((k + 1 : Nat) : Int) - 1 = (k : Int) := by push_cast ; ring
    simp only [Nat.add_sub_cancel, hcm, hck]
    exact ⟨lastAbsorb_sum m width (width.fdiv (m + 1 : Nat)),
           lastAbsorb_sum k height (height.fdiv (k + 1 : Nat)),
           fun i hi => lastAbsorb_get m i width (width.fdiv (m + 1 : Nat)) hi,
           lastAbsorb_get_last m width (width.fdiv (m + 1 : Nat)),
           fun i hi => lastAbsorb_get k i height (height.fdiv (k + 1 : Nat)) hi,
           lastAbsorb_get_last k height (height.fdiv (k + 1 : Nat))⟩

/-- C1 witness: the partition property evaluated on the concrete table
`new_tbl 3 4 100 10` (column widths `[25, 25, 25, 25]`, row heights
`[3, 3, 4]`). -/
theorem claim_C1_witness :
    ({ tblPr := some { attrs := [("firstRow", "1"), ("bandRow", "1")],
                       children := [("a:tableStyleId",
                         "\x7b5C22544A-7EE6-4342-B048-85BDC9FD1C3A\x7d")] },
       gridColWs := [25, 25, 25, 25], trHs := [3, 3, 4] } : Tbl).gridColWs.sum = 100 ∧
    ({ tblPr := some { attrs := [("firstRow", "1"), ("bandRow", "1")],
                       children := [("a:tableStyleId",
                         "\x7b5C22544A-7EE6-4342-B048-85BDC9FD1C3A\x7d")] },
       gridColWs := [25, 25, 25, 25], trHs := [3, 3, 4] } : Tbl).trHs.sum = 10 :=
  ⟨(claim_C1_new_tbl_partition 3 4 100 10 _ rfl).1,
   (claim_C1_new_tbl_partition 3 4 100 10 _ rfl).2.1⟩

theorem lookup_eraseKey (l : List (String × String)) (k : String) :
    (eraseKey l k).lookup k = none := by
  induction l with
  | nil => rfl
  | cons p rest ih =>
    obtain ⟨pk, pv⟩ := p
    by_cases hp : pk = k
    · simpa [eraseKey, List.filter_cons, hp] using ih
    · have hb : (k == pk) = false := beq_eq_false_iff_ne.mpr (Ne.symm hp)
      simpa [eraseKey, List.filter_cons, hp, List.lookup, hb] using ih

/-- C10: on a cell freshly created by `CT_TableCell.new_tc`, whose template
already contains an attribute-empty `a:tcPr` child, assigning None to the
anchor or to any margin property removes that `tcPr` child entirely — the
pruning applies to the factory-provided properties block as well. -/
theorem claim_C10_fresh_prune :
    (CT_TableCell.clear_anchor CT_TableCell.new_tc).tcPr = none ∧
    (CT_TableCell.set_anchor CT_TableCell.new_tc none).tcPr = none ∧
    (CT_TableCell.set_marX CT_TableCell.new_tc "marT" none).tcPr = none ∧
    (CT_TableCell.set_marX CT_TableCell.new_tc "marR" none).tcPr = none ∧
    (CT_TableCell.set_marX CT_TableCell.new_tc "marB" none).tcPr = none ∧
    (CT_TableCell.set_marX CT_TableCell.new_tc "marL" none).tcPr = none := by
  decide

/-- C6 counterexample: the cell built by `CT_TableCell.new_tc` does have a
`tcPr` properties block present (attribute-empty), contradicting the claim
that the margin defaults are read "without any tcPr properties block
present". -/
theorem claim_C6_counterexample :
    CT_TableCell.new_tc.tcPr = some [] ∧ CT_TableCell.new_tc.tcPr ≠ none := by
  decide

/-- C6 (amended): a fresh `new_tc` cell reads marT and marB as 45720 and
marL and marR as 91440, the defaults coming from attribute absence — the
factory template does include an attribute-empty `a:tcPr` child; setting any
margin to None removes that attribute, the resulting `tcPr` (when kept) no
longer carries it and is non-empty, and `tcPr` is removed entirely when no
attribute remains on it. -/
theorem claim_C6_margin_defaults_and_prune (tc : TcCell) (attr : String) :
    (CT_TableCell.marT CT_TableCell.new_tc = Except.ok 45720 ∧
     CT_TableCell.marB CT_TableCell.new_tc = Except.ok 45720 ∧
     CT_TableCell.marL CT_TableCell.new_tc = Except.ok 91440 ∧
     CT_TableCell.marR CT_TableCell.new_tc = Except.ok 91440) ∧
    (∀ a2, (CT_TableCell.set_marX tc attr none).tcPr = some a2 →
       a2.lookup attr = none ∧ a2 ≠ []) ∧
    (∀ attrs, tc.tcPr = some attrs → eraseKey attrs attr = [] →
       (CT_TableCell.set_marX tc attr none).tcPr = none) := by
  refine ⟨⟨rfl, rfl, rfl, rfl⟩, ?_, ?_⟩
  · intro a2 h2
    rcases htc : tc.tcPr with _ | attrs
    · simp [CT_TableCell.set_marX, CT_TableCell.clear_marX, htc] at h2
    · by_cases he : eraseKey attrs attr = []
      · simp [CT_TableCell.set_marX, CT_TableCell.clear_marX, htc, he] at h2
      · simp [CT_TableCell.set_marX, CT_TableCell.clear_marX, htc, he] at h2
        subst h2
        exact ⟨lookup_eraseKey attrs attr, he⟩
  · intro attrs htc he
    simp [CT_TableCell.set_marX, CT_TableCell.clear_marX, htc, he]

/-- C6 witness: the amended statement applied at the fresh cell and the
`marT` attribute; clearing `marT` on the fresh (attribute-empty) block
removes `tcPr` entirely. -/
theorem claim_C6_witness :
    (CT_TableCell.set_marX CT_TableCell.new_tc "marT" none).tcPr = none ∧
    CT_TableCell.marT CT_TableCell.new_tc = Except.ok 45720 :=
  ⟨(claim_C6_margin_defaults_and_prune CT_TableCell.new_tc "marT").2.2 [] rfl rfl,
   (claim_C6_margin_defaults_and_prune CT_TableCell.new_tc "marT").1.1⟩

/-- C5 counterexample: on the freshly created table `new_tbl 2 3 100 200`
the boolean properties `firstRow` and `bandRow` read as true, not false —
the factory template carries `<a:tblPr firstRow="1" bandRow="1">`. -/
theorem claim_C5_counterexample :
    (CT_Table.new_tbl 2 3 100 200).map
      (fun t => CT_Table.get_boolean_property t "firstRow") = Except.ok true ∧
    (CT_Table.new_tbl 2 3 100 200).map
      (fun t => CT_Table.get_boolean_property t "bandRow") = Except.ok true :=
  ⟨rfl, rfl⟩

/-- C5 (amended): on a table freshly created by `CT_Table.new_tbl`, the
boolean style properties `bandCol`, `firstCol`, `lastCol` and `lastRow` read
as false, while `firstRow` and `bandRow` read as true because the factory
template sets them to `"1"`; for each of the six properties, setting it to
true and then to false yields false with the attribute absent from the
`tblPr` element. -/
theorem claim_C5_bool_props (rows cols : Nat) (width height : Int) (tbl : Tbl)
    (h : CT_Table.new_tbl rows cols width height = Except.ok tbl)
    (p : String) (hp : p ∈ BOOLPROPS) :
    (CT_Table.get_boolean_property tbl "bandCol" = false ∧
     CT_Table.get_boolean_property tbl "firstCol" = false ∧
     CT_Table.get_boolean_property tbl "lastCol" = false ∧
     CT_Table.get_boolean_property tbl "lastRow" = false ∧
     CT_Table.get_boolean_property tbl "firstRow" = true ∧
     CT_Table.get_boolean_property tbl "bandRow" = true) ∧
    CT_Table.get_boolean_property
      (CT_Table.set_boolean_property (CT_Table.set_boolean_property tbl p true) p false)
      p = false ∧
    (CT_Table.set_boolean_property (CT_Table.set_boolean_property tbl p true) p false).tblPr.map
      (fun pr => pr.attrs.lookup p) = some none := by
  by_cases hz : rows = 0 ∨ cols = 0
  · rw [CT_Table.new_tbl, if_pos hz] at h
    exact absurd h (by simp)
  · rw [CT_Table.new_tbl, if_neg hz] at h
    have h2 := Except.ok.inj h
    subst h2
    refine ⟨⟨rfl, rfl, rfl, rfl, rfl, rfl⟩, ?_⟩
    simp only [BOOLPROPS, List.mem_cons, List.not_mem_nil, or_false] at hp
    rcases hp with rfl | rfl | rfl | rfl | rfl | rfl
    all_goals exact ⟨rfl, rfl⟩

/-- C5 witness: the amended statement evaluated on `new_tbl 2 3 100 200`
(column widths `[33, 33, 34]`, row heights `[100, 100]`) at the `firstCol`
property. -/
theorem claim_C5_witness :
    CT_Table.get_boolean_property
      (CT_Table.set_boolean_property
        (CT_Table.set_boolean_property
          { tblPr := some { attrs := [("firstRow", "1"), ("bandRow", "1")],
                            children := [("a:tableStyleId",
                              "\x7b5C22544A-7EE6-4342-B048-85BDC9FD1C3A\x7d")] },
            gridColWs := [33, 33, 34], trHs := [100, 100] } "firstCol" true)
        "firstCol" false) "firstCol" = false ∧
    CT_Table.get_boolean_property
      { tblPr := some { attrs := [("firstRow", "1"), ("bandRow", "1")],
                        children := [("a:tableStyleId",
                          "\x7b5C22544A-7EE6-4342-B048-85BDC9FD1C3A\x7d")] },
        gridColWs := [33, 33, 34], trHs := [100, 100] } "bandCol" = false :=
  ⟨(claim_C5_bool_props 2 3 100 200 _ rfl "firstCol" (by decide)).2.1,
   (claim_C5_bool_props 2 3 100 200 _ rfl "firstCol" (by decide)).1.1⟩

theorem splitColon_ne_nil (l : List Char) : splitColon l ≠ [] := by
  cases l with
  | nil => simp [splitColon]
  | cons c rest =>
    rw [splitColon]
    by_cases hc : c = ':'
    · simp [hc]
    · rw [if_neg hc]
      rcases splitColon rest with _ | ⟨g, gs⟩ <;> simp

theorem splitColon_no_colon (l : List Char) (h : ':' ∉ l) : splitColon l = [l] := by
  induction l with
  | nil => rfl
  | cons c rest ih =>
    have hc : c ≠ ':' := fun hcc => h (hcc ▸ List.mem_cons_self c rest)
    have hr : ':' ∉ rest := fun hrr => h (List.mem_cons_of_mem c hrr)
    rw [splitColon, if_neg hc, ih hr]

theorem splitColon_append (l r : List Char) (h : ':' ∉ l) :
    splitColon (l ++ ':' :: r) = l :: splitColon r := by
  induction l with
  | nil => simp [splitColon]
  | cons c rest ih =>
    have hc : c ≠ ':' := fun hcc => h (hcc ▸ List.mem_cons_self c rest)
    have hr : ':' ∉ rest := fun hrr => h (List.mem_cons_of_mem c hrr)
    rw [List.cons_append, splitColon, if_neg hc, ih hr]

/-- C8 counterexample: on the tag `"a:b:c"` (which contains a colon) `qn`
raises a `ValueError` (the two-variable unpacking of `split(':')` fails on
three parts) instead of resolving prefix `a` and keeping `"b:c"` as the
local name as the claim asserts. -/
theorem claim_C8_counterexample :
    qn "a:b:c" = Except.error PyErr.valueError ∧
    qn "a:b:c" ≠ Except.ok
      ("\x7bhttp://schemas.openxmlformats.org/drawingml/2006/main\x7db:c") := by
  refine ⟨rfl, ?_⟩
  intro hh
  have h1 : (Except.error PyErr.valueError : Except PyErr String) = Except.ok
      ("\x7bhttp://schemas.openxmlformats.org/drawingml/2006/main\x7db:c") :=
    (show qn "a:b:c" = Except.error PyErr.valueError from rfl).symm.trans hh
  simp at h1

/-- C8 (amended): `qn` splits the tag on colons into exactly a prefix and a
local part: on a tag with exactly one colon it resolves the prefix through
the registry and returns the Clark-notation qualified name; it fails with an
error both when the string contains no colon and when it contains more than
one colon (the remainder after the first colon is not kept as local name). -/
theorem claim_C8_qn :
    (∀ (pfx tagroot : List Char) (uri : String), ':' ∉ pfx → ':' ∉ tagroot →
       nsmap.lookup (String.mk pfx) = some uri →
       qn (String.mk (pfx ++ ':' :: tagroot)) =
         Except.ok ("\x7b" ++ uri ++ "\x7d" ++ String.mk tagroot)) ∧
    (∀ l : List Char, ':' ∉ l → qn (String.mk l) = Except.error PyErr.valueError) ∧
    (∀ l1 l2 l3 : List Char, ':' ∉ l1 → ':' ∉ l2 →
       qn (String.mk (l1 ++ ':' :: (l2 ++ ':' :: l3))) = Except.error PyErr.valueError) := by
  refine ⟨?_, ?_, ?_⟩
  · intro pfx tagroot uri hp ht hu
    have hs : splitColon (String.mk (pfx ++ ':' :: tagroot)).toList = [pfx, tagroot] := by
      have h1 : (String.mk (pfx ++ ':' :: tagroot)).toList = pfx ++ ':' :: tagroot := rfl
      rw [h1, splitColon_append pfx tagroot hp, splitColon_no_colon tagroot ht]
    rw [qn, hs]
    dsimp only
    rw [hu]
  · intro l hl
    have hs : splitColon (String.mk l).toList = [l] := splitColon_no_colon l hl
    rw [qn, hs]
  · intro l1 l2 l3 h1 h2
    rcases hgg : splitColon l3 with _ | ⟨g, gs⟩
    · exact absurd hgg (splitColon_ne_nil l3)
    · have hs : splitColon (String.mk (l1 ++ ':' :: (l2 ++ ':' :: l3))).toList
          = l1 :: l2 :: g :: gs := by
        have e : (String.mk (l1 ++ ':' :: (l2 ++ ':' :: l3))).toList
            = l1 ++ ':' :: (l2 ++ ':' :: l3) := rfl
        rw [e, splitColon_append l1 _ h1, splitColon_append l2 l3 h2, hgg]
      rw [qn, hs]

/-- C8 witness: the amended statement evaluated at the tag `a:tbl`, the
no-colon failure at `"tbl"`, and the two-colon failure at `"a:b:c"`. -/
theorem claim_C8_witness :
    qn (String.mk (['a'] ++ ':' :: ['t', 'b', 'l'])) =
      Except.ok ("\x7b" ++ "http://schemas.openxmlformats.org/drawingml/2006/main"
        ++ "\x7d" ++ String.mk ['t', 'b', 'l']) ∧
    qn (String.mk ['t', 'b', 'l']) = Except.error PyErr.valueError ∧
    qn (String.mk (['a'] ++ ':' :: (['b'] ++ ':' :: ['c']))) = Except.error PyErr.valueError :=
  ⟨claim_C8_qn.1 ['a'] ['t', 'b', 'l']
      "http://schemas.openxmlformats.org/drawingml/2006/main"
      (by decide) (by decide) rfl,
   claim_C8_qn.2.1 ['t', 'b', 'l'] (by decide),
   claim_C8_qn.2.2 ['a'] ['b'] ['c'] (by decide) (by decide)⟩

theorem lookupChild_setChildText (cs : List ChildElem) (tag text : String) :
    (lookupChild (setChildText cs tag text) tag).map ChildElem.text = some text := by
  induction cs with
  | nil => simp [setChildText, lookupChild, List.find?_cons]
  | cons c rest ih =>
    by_cases hc : c.tag = tag
    · simp [setChildText, hc, lookupChild, List.find?_cons]
    · have hb : (c.tag == tag) = false := beq_eq_false_iff_ne.mpr hc
      simpa [setChildText, hc, lookupChild, List.find?_cons, hb] using ih

/-- C4: for every string of at most 255 characters, setting a string core
property and then getting it returns the original string; setting fails
with a ValueError ("exceeded 255 char max length") when the value exceeds
255 characters after string conversion, leaving the element unchanged. -/
theorem claim_C4_str_prop_roundtrip (props : CoreProps) (name tag : String) (s : String)
    (htag : CT_CoreProperties.str_tags.lookup name = some tag) :
    (s.length ≤ 255 →
       (CT_CoreProperties.set_str_prop props name (.pstr s)).1 = none ∧
       CT_CoreProperties.get_str_prop
         (CT_CoreProperties.set_str_prop props name (.pstr s)).2 name = Except.ok s) ∧
    (255 < s.length →
       CT_CoreProperties.set_str_prop props name (.pstr s) = (some PyErr.valueError, props)) := by
  constructor
  · intro hlen
    have hnot : ¬ 255 < s.length := by omega
    simp only [CT_CoreProperties.set_str_prop, pyStrOf, if_neg hnot, htag]
    refine ⟨by trivial, ?_⟩
    simp only [CT_CoreProperties.get_str_prop, htag]
    have hfound := lookupChild_setChildText props.children tag s
    rcases h2 : lookupChild (setChildText props.children tag s) tag with _ | c
    · rw [h2] at hfound
      exact absurd hfound (by simp)
    · rw [h2] at hfound
      simp only [Option.map_some', Option.some.injEq] at hfound
      simp [hfound]
  · intro hlen
    simp only [CT_CoreProperties.set_str_prop, pyStrOf, if_pos hlen]

/-- C4 witness: the roundtrip evaluated on a fresh coreProperties element
for the `author` property and the string `"me"`. -/
theorem claim_C4_witness :
    (CT_CoreProperties.set_str_prop CT_CoreProperties.new_coreProperties "author"
      (.pstr "me")).1 = none ∧
    CT_CoreProperties.get_str_prop
      (CT_CoreProperties.set_str_prop CT_CoreProperties.new_coreProperties "author"
        (.pstr "me")).2 "author" = Except.ok "me" :=
  (claim_C4_str_prop_roundtrip CT_CoreProperties.new_coreProperties "author" "dc:creator"
    "me" rfl).1 (by decide)

/-- C9: every core-property mutation is atomic — whenever the string, date
or revision setter raises, the returned element state equals the input
state: no child element, text or attribute has been touched, because each
setter performs all of its validation before its first mutation. -/
theorem claim_C9_setter_atomicity (props : CoreProps) (name : String) (v : PyValue) :
    ((CT_CoreProperties.set_str_prop props name v).1.isSome →
       (CT_CoreProperties.set_str_prop props name v).2 = props) ∧
    ((CT_CoreProperties.set_date_prop props name v).1.isSome →
       (CT_CoreProperties.set_date_prop props name v).2 = props) ∧
    ((CT_CoreProperties.set_revision props v).1.isSome →
       (CT_CoreProperties.set_revision props v).2 = props) := by
  refine ⟨?_, ?_, ?_⟩
  · intro h
    by_cases hl : 255 < (pyStrOf v).length
    · simp only [CT_CoreProperties.set_str_prop, if_pos hl]
    · rcases ht : CT_CoreProperties.str_tags.lookup name with _ | tag
      · simp only [CT_CoreProperties.set_str_prop, if_neg hl, ht]
      · simp only [CT_CoreProperties.set_str_prop, if_neg hl, ht, Option.isSome_none] at h
        exact absurd h (by simp)
  · intro h
    cases v with
    | pstr s => rfl
    | pint n => rfl
    | pnone => rfl
    | pdt d =>
      rcases ht : CT_CoreProperties.date_tags.lookup name with _ | tag
      · simp only [CT_CoreProperties.set_date_prop, ht]
      · by_cases hy : d.year < 1900
        · simp only [CT_CoreProperties.set_date_prop, ht, if_pos hy]
        · by_cases hcm : name = "created" ∨ name = "modified"
          · simp only [CT_CoreProperties.set_date_prop, ht, if_neg hy, if_pos hcm,
              Option.isSome_none] at h
            exact absurd h (by simp)
          · simp only [CT_CoreProperties.set_date_prop, ht, if_neg hy, if_neg hcm,
              Option.isSome_none] at h
            exact absurd h (by simp)
  · intro h
    cases v with
    | pstr s => rfl
    | pdt d => rfl
    | pnone => rfl
    | pint n =>
      by_cases hn : n < 1
      · simp only [CT_CoreProperties.set_revision, if_pos hn]
      · simp only [CT_CoreProperties.set_revision, if_neg hn, Option.isSome_none] at h
        exact absurd h (by simp)

/-- C9 witness: the atomicity statement applied to three concretely failing
mutations on a fresh coreProperties element — a 256-character author string,
a non-datetime `created` value, and revision 0. -/
theorem claim_C9_witness :
    (CT_CoreProperties.set_str_prop CT_CoreProperties.new_coreProperties "author"
       (.pstr (String.mk (List.replicate 256 'a')))).2 = CT_CoreProperties.new_coreProperties ∧
    (CT_CoreProperties.set_date_prop CT_CoreProperties.new_coreProperties "created"
       (.pstr "not a datetime")).2 = CT_CoreProperties.new_coreProperties ∧
    (CT_CoreProperties.set_revision CT_CoreProperties.new_coreProperties (.pint 0)).2
      = CT_CoreProperties.new_coreProperties :=
  ⟨(claim_C9_setter_atomicity CT_CoreProperties.new_coreProperties "author" _).1 (by decide),
   (claim_C9_setter_atomicity CT_CoreProperties.new_coreProperties "created"
      (.pstr "not a datetime")).2.1 rfl,
   (claim_C9_setter_atomicity CT_CoreProperties.new_coreProperties "author" (.pint 0)).2.2 rfl⟩

/-- C3 (amended): getting a date core property parses W3CDTF text of each
supported precision (year; year-month; year-month-day; full date-time) with
an optional numeric UTC offset of the form ±HH:MM, applying the offset with
the inverted sign convention (a +HH:MM suffix is subtracted from the parsed
naive value, a -HH:MM suffix is added); for any text whose parsing fails
with a ValueError the get returns the absent-value sentinel (None) — but a
parse whose offset application crosses the supported year range 1..9999
raises an OverflowError, which `except ValueError` does not catch, so that
particular unparseable text makes the get raise rather than return None. -/
theorem claim_C3_date_parse :
    (CT_CoreProperties.parse_W3CDTF_to_datetime "2003"
       = Except.ok ⟨2003, 1, 1, 0, 0, 0⟩) ∧
    (CT_CoreProperties.parse_W3CDTF_to_datetime "2003-12"
       = Except.ok ⟨2003, 12, 1, 0, 0, 0⟩) ∧
    (CT_CoreProperties.parse_W3CDTF_to_datetime "2003-12-31"
       = Except.ok ⟨2003, 12, 31, 0, 0, 0⟩) ∧
    (CT_CoreProperties.parse_W3CDTF_to_datetime "2003-12-31T10:14:55"
       = Except.ok ⟨2003, 12, 31, 10, 14, 55⟩) ∧
    (CT_CoreProperties.parse_W3CDTF_to_datetime "2003-12-31T10:14:55Z"
       = Except.ok ⟨2003, 12, 31, 10, 14, 55⟩) ∧
    (CT_CoreProperties.parse_W3CDTF_to_datetime "2003-12-31T10:14:55-08:00"
       = Except.ok ⟨2003, 12, 31, 18, 14, 55⟩) ∧
    (CT_CoreProperties.parse_W3CDTF_to_datetime "2003-12-31T10:14:55+08:00"
       = Except.ok ⟨2003, 12, 31, 2, 14, 55⟩) ∧
    (∀ (dt : PDateTime) (off : List Char) (isPlus : Bool) (h m : Int),
       matchOffset off = some (isPlus, h, m) →
       CT_CoreProperties.offset_dt dt off
         = addSeconds dt ((if isPlus then -1 else 1) * (h * 3600 + m * 60))) ∧
    (∀ (props : CoreProps) (name tag : String) (c : ChildElem),
       CT_CoreProperties.date_tags.lookup name = some tag →
       lookupChild props.children tag = some c →
       CT_CoreProperties.parse_W3CDTF_to_datetime c.text = Except.error PyErr.valueError →
       CT_CoreProperties.get_date_prop props name = Except.ok none) ∧
    (∀ (props : CoreProps) (name tag : String),
       CT_CoreProperties.date_tags.lookup name = some tag →
       lookupChild props.children tag = none →
       CT_CoreProperties.get_date_prop props name = Except.ok none) := by
  refine ⟨rfl, rfl, rfl, rfl, rfl, rfl, rfl, ?_, ?_, ?_⟩
  · intro dt off isPlus h m hm
    rw [CT_CoreProperties.offset_dt, hm]
  · intro props name tag c ht hc hp
    simp only [CT_CoreProperties.get_date_prop, ht, hc, hp]
  · intro props name tag ht hc
    simp only [CT_CoreProperties.get_date_prop, ht, hc]

/-- C3 counterexample: the claim asserts that for any unparseable text the
get returns None rather than raising; but on
`"0001-01-01T00:00:00+01:00"` the offset application overflows below
`datetime.min`, `dt + timedelta` raises OverflowError (not ValueError), the
`except ValueError` in `__get_date_prop` does not catch it, and the get
raises instead of returning None. -/
theorem claim_C3_counterexample :
    CT_CoreProperties.get_date_prop
      { children := [{ tag := "dcterms:created", text := "0001-01-01T00:00:00+01:00",
                       attrib := [] }], attrib := [] } "created"
      = Except.error PyErr.overflowError ∧
    CT_CoreProperties.get_date_prop
      { children := [{ tag := "dcterms:created", text := "0001-01-01T00:00:00+01:00",
                       attrib := [] }], attrib := [] } "created" ≠ Except.ok none := by
  refine ⟨rfl, ?_⟩
  intro hh
  have h0 : CT_CoreProperties.get_date_prop
      { children := [{ tag := "dcterms:created", text := "0001-01-01T00:00:00+01:00",
                       attrib := [] }], attrib := [] } "created"
      = Except.error PyErr.overflowError := rfl
  have h1 := h0.symm.trans hh
  simp at h1

/-- C3 witness: the amended statement applied at the concrete offset string
`+08:00` (subtracted, per the inverted convention) and at a stored text
(`"garbage"`) whose parse fails with a ValueError, where the get returns
None. -/
theorem claim_C3_witness :
    CT_CoreProperties.offset_dt ⟨2003, 12, 31, 10, 14, 55⟩ ['+', '0', '8', ':', '0', '0']
      = addSeconds ⟨2003, 12, 31, 10, 14, 55⟩
          ((if true then (-1 : Int) else 1) * (8 * 3600 + 0 * 60)) ∧
    CT_CoreProperties.get_date_prop
      { children := [{ tag := "dcterms:created", text := "garbage", attrib := [] }],
        attrib := [] } "created" = Except.ok none :=
  ⟨claim_C3_date_parse.2.2.2.2.2.2.2.1 ⟨2003, 12, 31, 10, 14, 55⟩
      ['+', '0', '8', ':', '0', '0'] true 8 0 rfl,
   claim_C3_date_parse.2.2.2.2.2.2.2.2.1
      { children := [{ tag := "dcterms:created", text := "garbage", attrib := [] }],
        attrib := [] } "created" "dcterms:created"
      { tag := "dcterms:created", text := "garbage", attrib := [] } rfl rfl rfl⟩

theorem deannotate_elem (t : String) (a : List (String × String)) (cs : List XTree) :
    deannotate (.elem t a cs)
      = .elem t (a.filter (fun p => p.1 ≠ pytypeAttrName)) (cs.map deannotate) := by
  rw [deannotate]
  congr 1
  exact List.attach_map_val cs deannotate

theorem allAttrNames_elem (t : String) (a : List (String × String)) (cs : List XTree) :
    allAttrNames (.elem t a cs) = a.map Prod.fst ++ (cs.map allAttrNames).flatten := by
  rw [allAttrNames]
  congr 2
  exact List.attach_map_val cs allAttrNames

theorem no_pytype_in_deannotate : ∀ (n : Nat) (e : XTree), sizeOf e ≤ n →
    pytypeAttrName ∉ allAttrNames (deannotate e) := by
  intro n
  induction n with
  | zero =>
    intro e he
    exfalso
    rcases e with ⟨t, a, cs⟩
    have h2 : sizeOf (XTree.elem t a cs) = 1 + sizeOf t + sizeOf a + sizeOf cs := by
      simp [XTree.elem.sizeOf_spec]
    omega
  | succ n ih =>
    intro e he
    rcases e with ⟨t, a, cs⟩
    rw [deannotate_elem, allAttrNames_elem]
    intro hmem
    rcases List.mem_append.mp hmem with h1 | h2
    · obtain ⟨p, hp, hfst⟩ := List.mem_map.mp h1
      have hfil := (List.mem_filter.mp hp).2
      simp only [ne_eq, decide_not, Bool.not_eq_true', decide_eq_false_iff_not] at hfil
      exact hfil hfst
    · obtain ⟨l, hl, hmem2⟩ := List.mem_flatten.mp h2
      obtain ⟨d, hd, hdeq⟩ := List.mem_map.mp hl
      obtain ⟨c0, hc0, hc0eq⟩ := List.mem_map.mp hd
      subst hc0eq
      subst hdeq
      have hsz : sizeOf c0 ≤ n := by
        have hlt := List.sizeOf_lt_of_mem hc0
        have hspec : sizeOf (XTree.elem t a cs) = 1 + sizeOf t + sizeOf a + sizeOf cs := by
          simp [XTree.elem.sizeOf_spec]
        omega
      exact ih c0 hsz hmem2

/-- C2: for every element tree, `oxml_tostring` strips the parser-attached
`py:pytype` type-annotation metadata before serializing — no attribute of
the deannotated tree it serializes is the pytype annotation attribute (the
`xsi:type` attributes the code sets deliberately are preserved, by
`xsi=False`). -/
theorem claim_C2_tostring_strips_annotations (e : XTree) :
    pytypeAttrName ∉ allAttrNames (deannotate e) ∧
    oxml_tostring e = serializeXml (deannotate e) :=
  ⟨no_pytype_in_deannotate (sizeOf e) e (Nat.le_refl _), rfl⟩

/-- C7: given a rectangular data table of 3 columns (one label column of N
rows plus two value columns) and headings `["Category", "A", "B"]`, the
chart builder produces exactly 2 series with idx/order values 0 and 1,
category formula `Sheet1!$A$2:$A$<N+1>`, series-name formulas `Sheet1!$B$1`
and `Sheet1!$C$1`, and value formulas `Sheet1!$B$2:$B$<N+1>` and
`Sheet1!$C$2:$C$<N+1>` respectively. -/
theorem claim_C7_chart_series (N : Nat) (c0 c1 c2 : List String)
    (h0 : c0.length = N) (h1 : c1.length = N) (h2 : c2.length = N) :
    CT_Chart_Container.new_chart_sers [c0, c1, c2] ["Category", "A", "B"] =
      Except.ok
        [ { idx := 0, order := 0, tx_f := "Sheet1!$B$1", tx_cache := ["A"],
            cat_f := "Sheet1!$A$2:$A$" ++ Nat.repr (N + 1), cat_cache := c0,
            val_f := "Sheet1!$B$2:$B$" ++ Nat.repr (N + 1), val_cache := c1 },
          { idx := 1, order := 1, tx_f := "Sheet1!$C$1", tx_cache := ["B"],
            cat_f := "Sheet1!$A$2:$A$" ++ Nat.repr (N + 1), cat_cache := c0,
            val_f := "Sheet1!$C$2:$C$" ++ Nat.repr (N + 1), val_cache := c2 } ] := by
  have key : CT_Chart_Container.new_chart_sers [c0, c1, c2] ["Category", "A", "B"]
      = Except.ok
        [ { idx := 0, order := 0, tx_f := "Sheet1!$B$1", tx_cache := ["A"],
            cat_f := "Sheet1!$A$2:$A$" ++ Nat.repr (c1.length + 1), cat_cache := c0,
            val_f := "Sheet1!$B$2:$B$" ++ Nat.repr (c0.length + 1), val_cache := c1 },
          { idx := 1, order := 1, tx_f := "Sheet1!$C$1", tx_cache := ["B"],
            cat_f := "Sheet1!$A$2:$A$" ++ Nat.repr (c1.length + 1), cat_cache := c0,
            val_f := "Sheet1!$C$2:$C$" ++ Nat.repr (c0.length + 1), val_cache := c2 } ] := rfl
  rw [key, h0, h1]

/-- C7 witness: the series generation evaluated on the concrete 2-row
table `[["r1","r2"], ["1","2"], ["3","4"]]`. -/
theorem claim_C7_witness :
    CT_Chart_Container.new_chart_sers [["r1", "r2"], ["1", "2"], ["3", "4"]]
        ["Category", "A", "B"] =
      Except.ok
        [ { idx := 0, order := 0, tx_f := "Sheet1!$B$1", tx_cache := ["A"],
            cat_f := "Sheet1!$A$2:$A$" ++ Nat.repr 3, cat_cache := ["r1", "r2"],
            val_f := "Sheet1!$B$2:$B$" ++ Nat.repr 3, val_cache := ["1", "2"] },
          { idx := 1, order := 1, tx_f := "Sheet1!$C$1", tx_cache := ["B"],
            cat_f := "Sheet1!$A$2:$A$" ++ Nat.repr 3, cat_cache := ["r1", "r2"],
            val_f := "Sheet1!$C$2:$C$" ++ Nat.repr 3, val_cache := ["3", "4"] } ] :=
  claim_C7_chart_series 2 ["r1", "r2"] ["1", "2"] ["3", "4"] rfl rfl rfl
